import Mathlib

/-!
Shallow embedding of the CUDA HAL driver (`iree/hal/cuda/cuda_driver.c`):
driver construction/destruction, device enumeration with a single packed
allocation, default-device selection, and device creation. Native CUDA entry
points reached through the dynamic symbol table are external collaborators and
are modelled as oracles; host allocation success is likewise an oracle.
-/

namespace IreeCuda

/-- Fixed length bound for device names
(`IREE_MAX_CUDA_DEVICE_NAME_LENGTH`, cuda_driver.c line 34). -/
def IREE_MAX_CUDA_DEVICE_NAME_LENGTH : Nat := 100

/-- Names of the native CUDA entry points reached through the symbol table. -/
inductive CudaCall where
  | cuInit
  | cuDeviceGetCount
  | cuDeviceGet
  | cuDeviceGetName
  deriving Repr, DecidableEq

/-- Status categories produced by the embedded code paths
(`iree_status_t` error payloads; `ok` is `Except.ok`). -/
inductive Status where
  | allocationFailed
  | symbolLoadFailed
  | cudaError (call : CudaCall)
  | notFound (defaultIndex : Int) (enumerated : Int)
  deriving Repr, DecidableEq

/-- The dynamic symbol table together with the behavior of the native CUDA
calls reached through it. Each entry point is an oracle giving either its
result or a native error (`Except.error ()` stands for a non-success
`CUresult`). `cuDeviceGetCount` writes a non-negative count, modelled as
`Nat`. `cuDeviceGet` maps an ordinal to the native `CUdevice` handle (a C
`int`). `cuDeviceGetName` yields the raw native name bytes for a handle. -/
structure Syms where
  cuInit : Except Unit Unit
  cuDeviceGetCount : Except Unit Nat
  cuDeviceGet : Int → Except Unit Int
  cuDeviceGetName : Int → Except Unit (List Nat)

/-- `iree_hal_device_info_t`: the fixed header fields. The `name` view points
into the trailing packed region; here it carries the bytes themselves. -/
structure DeviceInfo where
  device_id : Int
  name : List Nat
  deriving Repr, DecidableEq

/-- A record as left by the zero-initializing host allocation
(`iree_allocator_malloc` zeroes its block): id 0, empty name. -/
def zeroDeviceInfo : DeviceInfo := { device_id := 0, name := [] }

/-- Modelled from the spec: the native `cuDeviceGetName` call (the dynamic
symbols are outside the embedded sources) writes the device name into the
100-byte stack buffer, "bounded to `MAX_NAME_LENGTH`, truncated if longer —
this bound ... is the wire contract with the native backend" (§4.4). On
native failure the error is discarded (`CUDA_IGNORE_ERROR`, line 106) and the
buffer contents are unspecified; modelled as the empty name. -/
def nativeNameBuffer (syms : Syms) (device : Int) : List Nat :=
  match syms.cuDeviceGetName device with
  | Except.ok name => name.take IREE_MAX_CUDA_DEVICE_NAME_LENGTH
  | Except.error _ => []

/-- `iree_hal_cuda_populate_device_info` (lines 102-116): zero the record, set
`device_id` from the native handle, append the name bytes to the packed
buffer. Returns the record and the number of bytes appended
(`strlen(device_name)`, the advance of `buffer_ptr`). -/
def iree_hal_cuda_populate_device_info (syms : Syms) (device : Int) :
    DeviceInfo × Nat :=
  let device_name := nativeNameBuffer syms device
  ({ device_id := device, name := device_name }, device_name.length)

/-- The enumeration loop (lines 139-146) starting at index `start` with
`remaining` entries left: on `cuDeviceGet` failure it breaks, leaving the
remaining records as the zero-initialized allocation produced them. -/
def query_populate_from (syms : Syms) (start : Nat) : Nat → List DeviceInfo
  | 0 => []
  | Nat.succ remaining =>
    match syms.cuDeviceGet (start : Int) with
    | Except.error _ => List.replicate (Nat.succ remaining) zeroDeviceInfo
    | Except.ok device =>
        (iree_hal_cuda_populate_device_info syms device).1 ::
          query_populate_from syms (start + 1) remaining

/-- Number of records the loop actually populates before the first
`cuDeviceGet` failure (the populated prefix). -/
def query_populated_count (syms : Syms) (start : Nat) : Nat → Nat
  | 0 => 0
  | Nat.succ remaining =>
    match syms.cuDeviceGet (start : Int) with
    | Except.error _ => 0
    | Except.ok _ => 1 + query_populated_count syms (start + 1) remaining

/-- Total buffer size (lines 130-133): `device_count * sizeof(info)` plus one
`IREE_MAX_CUDA_DEVICE_NAME_LENGTH * sizeof(char)` per device, accumulated in
a loop. `sizeof_info` abstracts the platform-dependent struct size. -/
def query_total_size (sizeof_info : Nat) (device_count : Nat) : Nat :=
  (List.range device_count).foldl
    (fun total _ => total + IREE_MAX_CUDA_DEVICE_NAME_LENGTH)
    (device_count * sizeof_info)

/-- Offset of the packed name region inside the single block (lines 137-138):
`buffer_ptr` starts right after the `device_count` headers. -/
def query_name_region_offset (sizeof_info : Nat) (device_count : Nat) : Nat :=
  device_count * sizeof_info

/-- Host allocation events performed by enumeration. -/
inductive AllocEvent where
  | alloc (size : Nat)
  | free (size : Nat)
  deriving Repr, DecidableEq

/-- `iree_hal_cuda_driver_query_available_devices` (lines 118-155). `allocOk`
is the host allocator oracle (does an allocation of the given size succeed).
Returns the `iree_status_t` outcome — on success the record array and the
reported `*out_device_info_count` — together with the allocation events of
blocks still live on return. Faithful to the source: the loop's `status` is
an inner shadow of the outer one, so a `cuDeviceGet` failure only breaks the
loop and the function still reports `device_count`. -/
def iree_hal_cuda_driver_query_available_devices
    (sizeof_info : Nat) (allocOk : Nat → Bool) (syms : Syms) :
    Except Status (List DeviceInfo × Nat) × List AllocEvent :=
  match syms.cuDeviceGetCount with
  | Except.error _ =>
      (Except.error (Status.cudaError CudaCall.cuDeviceGetCount), [])
  | Except.ok device_count =>
      let total_size := query_total_size sizeof_info device_count
      if allocOk total_size then
        (Except.ok (query_populate_from syms 0 device_count, device_count),
         [AllocEvent.alloc total_size])
      else
        (Except.error Status.allocationFailed, [])

/-- `iree_hal_cuda_driver_select_default_device` (lines 157-175). The
`NotFound` status carries the formatted message payload: the configured
default index and the enumerated count. -/
def iree_hal_cuda_driver_select_default_device
    (syms : Syms) (default_device_index : Int) : Except Status Int :=
  match syms.cuDeviceGetCount with
  | Except.error _ =>
      Except.error (Status.cudaError CudaCall.cuDeviceGetCount)
  | Except.ok device_count =>
      if device_count = 0 ∨ (device_count : Int) ≤ default_device_index then
        Except.error (Status.notFound default_device_index (device_count : Int))
      else
        match syms.cuDeviceGet default_device_index with
        | Except.error _ => Except.error (Status.cudaError CudaCall.cuDeviceGet)
        | Except.ok device => Except.ok device

/-- How `create_device` obtained the native handle. -/
inductive ResolvedVia where
  | defaultSelection
  | directHandle
  deriving Repr, DecidableEq

/-- `iree_hal_cuda_driver_create_device` (lines 177-204) up to handle
resolution: `cuInit`, then `device = (CUdevice)device_id`; if the handle is 0
(the unspecified sentinel) resolve via default-device selection, else use the
caller-supplied value directly. The subsequent `iree_hal_cuda_device_create`
is out of scope; the resolved handle and the path taken are returned. -/
def iree_hal_cuda_driver_create_device
    (syms : Syms) (default_device_index : Int) (device_id : Int) :
    Except Status (Int × ResolvedVia) :=
  match syms.cuInit with
  | Except.error _ => Except.error (Status.cudaError CudaCall.cuInit)
  | Except.ok _ =>
      let device := device_id
      if device = 0 then
        match iree_hal_cuda_driver_select_default_device
            syms default_device_index with
        | Except.error e => Except.error e
        | Except.ok d => Except.ok (d, ResolvedVia.defaultSelection)
      else
        Except.ok (device, ResolvedVia.directHandle)

/-- `iree_hal_cuda_driver_options_t`. -/
structure DriverOptions where
  default_device_index : Int
  deriving Repr, DecidableEq

/-- The constructed `iree_hal_cuda_driver_t` state relevant here: the
identifier bytes as stored, the byte offset of those bytes inside the single
backing block, and the copied default device index. -/
structure Driver where
  identifier : List Nat
  identifier_offset : Nat
  default_device_index : Int
  deriving Repr, DecidableEq

/-- Primitive events of driver construction and destruction. -/
inductive TraceEvent where
  | alloc (size : Nat)
  | load_symbols_ok
  | load_symbols_failed
  | unload_symbols
  | free (size : Nat)
  deriving Repr, DecidableEq

/-- `iree_hal_cuda_driver_destroy` (lines 73-82): unload the symbols, then
free the single backing block. Modelled from the spec for the symbol table
part (outside the embedded sources): unload "must be safe to invoke on a
driver whose symbol table failed to load" (§4.3), so the event is emitted
unconditionally. -/
def iree_hal_cuda_driver_destroy (total_size : Nat) : List TraceEvent :=
  [TraceEvent.unload_symbols, TraceEvent.free total_size]

/-- `iree_hal_cuda_driver_create_internal` (lines 50-71). `allocOk` and
`loadOk` are the allocator and `load_symbols` oracles (the dynamic symbol
loader is outside the embedded sources; per §4.1 it either loads fully or
fails atomically). One block of `sizeof(*driver) + identifier.size` bytes;
the identifier is copied to `(char*)driver + total_size - identifier.size`;
on load failure the driver is released, running the destroy path. -/
def iree_hal_cuda_driver_create_internal
    (sizeof_driver : Nat) (identifier : List Nat) (options : DriverOptions)
    (allocOk : Bool) (loadOk : Bool) :
    Except Status Driver × List TraceEvent :=
  let total_size := sizeof_driver + identifier.length
  if allocOk then
    let driver : Driver :=
      { identifier := identifier,
        identifier_offset := total_size - identifier.length,
        default_device_index := options.default_device_index }
    if loadOk then
      (Except.ok driver,
       [TraceEvent.alloc total_size, TraceEvent.load_symbols_ok])
    else
      (Except.error Status.symbolLoadFailed,
       [TraceEvent.alloc total_size, TraceEvent.load_symbols_failed] ++
         iree_hal_cuda_driver_destroy total_size)
  else
    (Except.error Status.allocationFailed, [])

/-- Net bytes still allocated after a trace (allocations minus frees). -/
def outstanding : List TraceEvent → Int
  | [] => 0
  | TraceEvent.alloc s :: rest => (s : Int) + outstanding rest
  | TraceEvent.free s :: rest => outstanding rest - (s : Int)
  | _ :: rest => outstanding rest

/-! ### Concrete native environments used by witnesses and counterexamples -/

/-- Two devices enumerated; `cuDeviceGet` succeeds at ordinal 0 and fails at
every other ordinal; names resolve. -/
def symsPartialGet : Syms :=
  { cuInit := Except.ok (),
    cuDeviceGetCount := Except.ok 2,
    cuDeviceGet := fun i => if i = 0 then Except.ok 0 else Except.error (),
    cuDeviceGetName := fun _ => Except.ok [65] }

/-- Two devices enumerated; every `cuDeviceGet` echoes its ordinal back as
the native handle; names resolve. -/
def symsTwoDevices : Syms :=
  { cuInit := Except.ok (),
    cuDeviceGetCount := Except.ok 2,
    cuDeviceGet := fun i => Except.ok i,
    cuDeviceGetName := fun _ => Except.ok [65] }

/-! ### Claims -/

/-- C1: the claim says a `cuDeviceGet` failure at index `i` truncates the
count reported on success to the populated prefix. The code stops filling
the array, but the loop's `status` shadows the outer one, so the function
still returns success reporting the full native count: with 2 devices and a
failure at index 1, only 1 record is populated (the second is the zero-filled
allocation, carrying the sentinel id 0) yet the reported count is 2. -/
theorem c1_reports_full_count_despite_truncated_population :
    (iree_hal_cuda_driver_query_available_devices 8 (fun _ => true)
        symsPartialGet).1 =
      Except.ok ([{ device_id := 0, name := [65] }, zeroDeviceInfo], 2) ∧
    query_populated_count symsPartialGet 0 2 = 1 ∧ (1 : Nat) ≠ 2 := by
  refine ⟨?_, ?_, by decide⟩ <;> rfl

/-- C2 counterexample: with 2 devices enumerated and a configured default
index of `-1` — out of range of `0..1` — default selection does not fail with
`NotFound`: the negative index is passed straight to `cuDeviceGet`, and
`createDevice` with the unspecified id succeeds. -/
theorem c2_negative_index_not_rejected :
    iree_hal_cuda_driver_create_device symsTwoDevices (-1) 0 =
      Except.ok (-1, ResolvedVia.defaultSelection) := by
  rfl

/-- C2 amended: with the count query succeeding with `N`, `createDevice` with
the unspecified id fails with `NotFound` naming the configured index `d` and
`N` exactly when `N = 0` or `d ≥ N`; when `d` is in range (or negative with
`N > 0`) the native handle at index `d` is resolved and selection is used. -/
theorem c2_default_selection_range_check (syms : Syms) (d : Int) (N : Nat)
    (hinit : syms.cuInit = Except.ok ())
    (hcount : syms.cuDeviceGetCount = Except.ok N) :
    (iree_hal_cuda_driver_create_device syms d 0 =
        Except.error (Status.notFound d (N : Int)) ↔
      (N = 0 ∨ (N : Int) ≤ d)) ∧
    (¬(N = 0 ∨ (N : Int) ≤ d) →
      ∀ h, syms.cuDeviceGet d = Except.ok h →
        iree_hal_cuda_driver_create_device syms d 0 =
          Except.ok (h, ResolvedVia.defaultSelection)) := by
  have hsel : iree_hal_cuda_driver_select_default_device syms d =
      (if N = 0 ∨ (N : Int) ≤ d then
        Except.error (Status.notFound d (N : Int))
      else
        match syms.cuDeviceGet d with
        | Except.error _ => Except.error (Status.cudaError CudaCall.cuDeviceGet)
        | Except.ok device => Except.ok device) := by
    unfold iree_hal_cuda_driver_select_default_device
    rw [hcount]
  constructor
  · constructor
    · intro heq
      by_contra hcond
      rw [if_neg hcond] at hsel
      unfold iree_hal_cuda_driver_create_device at heq
      rw [hinit] at heq
      simp only [if_pos rfl, hsel] at heq
      cases hget : syms.cuDeviceGet d with
      | ok device => rw [hget] at heq; simp at heq
      | error e => rw [hget] at heq; simp at heq
    · intro hcond
      rw [if_pos hcond] at hsel
      unfold iree_hal_cuda_driver_create_device
      rw [hinit]
      simp [hsel]
  · intro hcond h hget
    rw [if_neg hcond, hget] at hsel
    unfold iree_hal_cuda_driver_create_device
    rw [hinit]
    simp [hsel]

/-- C2 witness: the spec's own example — default index 5 with only 2 devices
enumerated fails with `NotFound` citing `(5, 2)`. -/
theorem c2_default_selection_range_check_witness :
    iree_hal_cuda_driver_create_device symsTwoDevices 5 0 =
      Except.error (Status.notFound 5 (2 : Int)) :=
  (c2_default_selection_range_check symsTwoDevices 5 2 rfl rfl).1.mpr
    (Or.inr (by decide))

/-- C6: when `load_symbols` fails, `create_internal` releases the partially
constructed driver — running the destroy path, which unloads the symbols
before freeing the single backing block — propagates the load failure, hands
back no driver, and leaks nothing (net outstanding bytes are 0). -/
theorem c6_symbol_load_failure_cleanup
    (sizeof_driver : Nat) (identifier : List Nat) (options : DriverOptions) :
    iree_hal_cuda_driver_create_internal sizeof_driver identifier options
        true false =
      (Except.error Status.symbolLoadFailed,
       [TraceEvent.alloc (sizeof_driver + identifier.length),
        TraceEvent.load_symbols_failed,
        TraceEvent.unload_symbols,
        TraceEvent.free (sizeof_driver + identifier.length)]) ∧
    outstanding
        (iree_hal_cuda_driver_create_internal sizeof_driver identifier options
          true false).2 = 0 := by
  constructor
  · rfl
  · simp [iree_hal_cuda_driver_create_internal, iree_hal_cuda_driver_destroy,
      outstanding]
    omega

/-- C7: `create_internal` performs exactly one allocation, of
`sizeof(*driver) + identifier.size` bytes; the identifier bytes are copied to
offset `total_size - identifier.size = sizeof(*driver)` — the trailing region
of that same block — and become the driver's stored identifier view, and
`options.default_device_index` is copied into the driver state. -/
theorem c7_create_single_allocation_layout
    (sizeof_driver : Nat) (identifier : List Nat) (options : DriverOptions) :
    iree_hal_cuda_driver_create_internal sizeof_driver identifier options
        true true =
      (Except.ok
        { identifier := identifier,
          identifier_offset := sizeof_driver,
          default_device_index := options.default_device_index },
       [TraceEvent.alloc (sizeof_driver + identifier.length),
        TraceEvent.load_symbols_ok]) := by
  simp [iree_hal_cuda_driver_create_internal]

/-- A 101-byte native device name, one byte over the bound. -/
def longName : List Nat := List.replicate 101 65

/-- One device whose native name is longer than the 100-byte bound. -/
def symsLongName : Syms :=
  { cuInit := Except.ok (),
    cuDeviceGetCount := Except.ok 1,
    cuDeviceGet := fun i => Except.ok i,
    cuDeviceGetName := fun _ => Except.ok longName }

/-- A backend reporting zero devices, the count query succeeding. -/
def symsNoDevices : Syms :=
  { cuInit := Except.ok (),
    cuDeviceGetCount := Except.ok 0,
    cuDeviceGet := fun _ => Except.error (),
    cuDeviceGetName := fun _ => Except.error () }

/-- C3: a native name longer than `MAX_NAME_LENGTH` is stored truncated to
exactly `MAX_NAME_LENGTH` bytes in the returned record, and for every device
the bytes appended to the packed name region never exceed the
`MAX_NAME_LENGTH` bytes reserved per device. -/
theorem c3_name_truncation_and_bound (syms : Syms) (device : Int)
    (name : List Nat)
    (hname : syms.cuDeviceGetName device = Except.ok name)
    (hlong : IREE_MAX_CUDA_DEVICE_NAME_LENGTH < name.length) :
    (iree_hal_cuda_populate_device_info syms device).1.name =
        name.take IREE_MAX_CUDA_DEVICE_NAME_LENGTH ∧
    (iree_hal_cuda_populate_device_info syms device).1.name.length =
        IREE_MAX_CUDA_DEVICE_NAME_LENGTH ∧
    ∀ (s : Syms) (d : Int),
      (iree_hal_cuda_populate_device_info s d).2 ≤
        IREE_MAX_CUDA_DEVICE_NAME_LENGTH := by
  have hbuf : nativeNameBuffer syms device =
      name.take IREE_MAX_CUDA_DEVICE_NAME_LENGTH := by
    unfold nativeNameBuffer
    rw [hname]
  refine ⟨?_, ?_, ?_⟩
  · simp [iree_hal_cuda_populate_device_info, hbuf]
  · simp only [iree_hal_cuda_populate_device_info, hbuf, List.length_take]
    omega
  · intro s d
    unfold iree_hal_cuda_populate_device_info nativeNameBuffer
    cases s.cuDeviceGetName d with
    | ok nm =>
        simp only [List.length_take]
        omega
    | error e => simp

/-- C3 witness: a concrete 101-byte name is stored as exactly 100 bytes. -/
theorem c3_name_truncation_and_bound_witness :
    (iree_hal_cuda_populate_device_info symsLongName 0).1.name =
        longName.take IREE_MAX_CUDA_DEVICE_NAME_LENGTH ∧
    (iree_hal_cuda_populate_device_info symsLongName 0).1.name.length =
        IREE_MAX_CUDA_DEVICE_NAME_LENGTH ∧
    ∀ (s : Syms) (d : Int),
      (iree_hal_cuda_populate_device_info s d).2 ≤
        IREE_MAX_CUDA_DEVICE_NAME_LENGTH :=
  c3_name_truncation_and_bound symsLongName 0 longName rfl (by decide)

/-- C4: a successful count query reporting zero devices yields success with
the empty record sequence and a reported count of 0, not an error (the
zero-byte host allocation is assumed to succeed; the allocator is an external
capability). -/
theorem c4_zero_devices_success (syms : Syms) (sizeof_info : Nat)
    (allocOk : Nat → Bool)
    (hcount : syms.cuDeviceGetCount = Except.ok 0)
    (halloc : allocOk (query_total_size sizeof_info 0) = true) :
    (iree_hal_cuda_driver_query_available_devices sizeof_info allocOk
        syms).1 = Except.ok ([], 0) := by
  unfold iree_hal_cuda_driver_query_available_devices
  rw [hcount]
  simp [halloc, query_populate_from]

/-- C4 witness: a concrete zero-device backend enumerates to `([], 0)`. -/
theorem c4_zero_devices_success_witness :
    (iree_hal_cuda_driver_query_available_devices 8 (fun _ => true)
        symsNoDevices).1 = Except.ok ([], 0) :=
  c4_zero_devices_success symsNoDevices 8 (fun _ => true) rfl rfl

/-- Folding `(· + c)` over a list adds `length * c` to the accumulator. -/
theorem foldl_add_const (c : Nat) :
    ∀ (l : List Nat) (init : Nat),
      l.foldl (fun total _ => total + c) init = init + l.length * c
  | [], init => by simp
  | x :: xs, init => by
      rw [List.foldl_cons, foldl_add_const c xs]
      simp [List.length_cons]
      ring

/-- C5: enumeration computes a total size of
`N * sizeof(info) + N * MAX_NAME_LENGTH`, allocates exactly one block of that
size, and the packed name region starts at offset `N * sizeof(info)`, right
after the `N` headers in the same block. -/
theorem c5_single_allocation_layout (sizeof_info : Nat) (syms : Syms)
    (N : Nat) (allocOk : Nat → Bool)
    (hcount : syms.cuDeviceGetCount = Except.ok N)
    (halloc : allocOk (query_total_size sizeof_info N) = true) :
    query_total_size sizeof_info N =
        N * sizeof_info + N * IREE_MAX_CUDA_DEVICE_NAME_LENGTH ∧
    query_name_region_offset sizeof_info N = N * sizeof_info ∧
    (iree_hal_cuda_driver_query_available_devices sizeof_info allocOk
        syms).2 =
      [AllocEvent.alloc
        (N * sizeof_info + N * IREE_MAX_CUDA_DEVICE_NAME_LENGTH)] := by
  have hts : query_total_size sizeof_info N =
      N * sizeof_info + N * IREE_MAX_CUDA_DEVICE_NAME_LENGTH := by
    unfold query_total_size
    rw [foldl_add_const]
    simp
  refine ⟨hts, rfl, ?_⟩
  unfold iree_hal_cuda_driver_query_available_devices
  rw [hcount]
  rw [hts] at halloc
  simp [halloc, hts]

/-- C5 witness: the layout facts at `N = 2`, `sizeof(info) = 8`. -/
theorem c5_single_allocation_layout_witness :
    query_total_size 8 2 = 2 * 8 + 2 * IREE_MAX_CUDA_DEVICE_NAME_LENGTH ∧
    query_name_region_offset 8 2 = 2 * 8 ∧
    (iree_hal_cuda_driver_query_available_devices 8 (fun _ => true)
        symsTwoDevices).2 =
      [AllocEvent.alloc (2 * 8 + 2 * IREE_MAX_CUDA_DEVICE_NAME_LENGTH)] :=
  c5_single_allocation_layout 8 symsTwoDevices 2 (fun _ => true) rfl rfl

/-- C8: with the idempotent native init succeeding, a nonzero caller-supplied
device id is reinterpreted directly as the native handle with no enumeration
round-trip, while the unspecified sentinel (0) routes through default-device
selection, propagating its outcome. -/
theorem c8_device_id_resolution (syms : Syms) (dflt : Int) (device_id : Int)
    (hinit : syms.cuInit = Except.ok ()) :
    (device_id ≠ 0 →
      iree_hal_cuda_driver_create_device syms dflt device_id =
        Except.ok (device_id, ResolvedVia.directHandle)) ∧
    (device_id = 0 →
      (∀ h, iree_hal_cuda_driver_select_default_device syms dflt =
          Except.ok h →
        iree_hal_cuda_driver_create_device syms dflt device_id =
          Except.ok (h, ResolvedVia.defaultSelection)) ∧
      (∀ e, iree_hal_cuda_driver_select_default_device syms dflt =
          Except.error e →
        iree_hal_cuda_driver_create_device syms dflt device_id =
          Except.error e)) := by
  constructor
  · intro hne
    unfold iree_hal_cuda_driver_create_device
    rw [hinit]
    simp [hne]
  · intro h0
    subst h0
    constructor
    · intro h hsel
      unfold iree_hal_cuda_driver_create_device
      rw [hinit]
      simp [hsel]
    · intro e hsel
      unfold iree_hal_cuda_driver_create_device
      rw [hinit]
      simp [hsel]

/-- C8 witness: id 7 is used directly as the native handle. -/
theorem c8_device_id_resolution_witness :
    iree_hal_cuda_driver_create_device symsTwoDevices 0 7 =
      Except.ok (7, ResolvedVia.directHandle) :=
  (c8_device_id_resolution symsTwoDevices 0 7 rfl).1 (by decide)

/-- When every `cuDeviceGet` in the window succeeds, the loop populates all
records, each carrying its native handle as the stored id. -/
theorem query_populate_from_all_ok (syms : Syms) (handles : Nat → Int) :
    ∀ (remaining start : Nat),
      (∀ j, start ≤ j → j < start + remaining →
        syms.cuDeviceGet (j : Int) = Except.ok (handles j)) →
      (query_populate_from syms start remaining).map DeviceInfo.device_id =
        (List.range' start remaining).map handles
  | 0, start, _ => by simp [query_populate_from]
  | Nat.succ remaining, start, hget => by
      have h0 : syms.cuDeviceGet (start : Int) =
          Except.ok (handles start) :=
        hget start (Nat.le_refl start) (by omega)
      have ih := query_populate_from_all_ok syms handles remaining (start + 1)
        (fun j hj1 hj2 => hget j (by omega) (by omega))
      simp [query_populate_from, h0, iree_hal_cuda_populate_device_info,
        List.range'_succ, ih]

/-- The loop always yields one record per enumerated index: the populated
prefix followed by the zero-initialized remainder. -/
theorem query_populate_from_length (syms : Syms) :
    ∀ (remaining start : Nat),
      (query_populate_from syms start remaining).length = remaining
  | 0, start => by simp [query_populate_from]
  | Nat.succ remaining, start => by
      cases hget : syms.cuDeviceGet (start : Int) with
      | ok device =>
          simp [query_populate_from, hget,
            query_populate_from_length syms remaining (start + 1)]
      | error e => simp [query_populate_from, hget]

/-- C10: a native device-name query failure is silently absorbed: with every
per-device handle query succeeding — and no assumption at all on the name
query, which may fail for every device — enumeration returns success with the
full count, one record per device, each record's id set from the native
handle. No error or warning for the failed name query reaches the caller. -/
theorem c10_name_query_failure_ignored (syms : Syms) (sizeof_info : Nat)
    (allocOk : Nat → Bool) (N : Nat) (handles : Nat → Int)
    (hcount : syms.cuDeviceGetCount = Except.ok N)
    (hget : ∀ j, j < N →
      syms.cuDeviceGet (j : Int) = Except.ok (handles j))
    (halloc : allocOk (query_total_size sizeof_info N) = true) :
    ∃ infos,
      (iree_hal_cuda_driver_query_available_devices sizeof_info allocOk
          syms).1 = Except.ok (infos, N) ∧
      infos.length = N ∧
      infos.map DeviceInfo.device_id = (List.range N).map handles := by
  refine ⟨query_populate_from syms 0 N, ?_, ?_, ?_⟩
  · unfold iree_hal_cuda_driver_query_available_devices
    rw [hcount]
    simp [halloc]
  · exact query_populate_from_length syms N 0
  · have hmap := query_populate_from_all_ok syms handles N 0
      (fun j hj1 hj2 => hget j (by omega))
    rw [hmap, List.range_eq_range']

/-- One device; `cuDeviceGet` echoes its ordinal as the handle; the native
name query fails for every device. -/
def symsNameFails : Syms :=
  { cuInit := Except.ok (),
    cuDeviceGetCount := Except.ok 1,
    cuDeviceGet := fun i => Except.ok i,
    cuDeviceGetName := fun _ => Except.error () }

/-- C10 witness: with the name query failing on the only device, enumeration
still succeeds with count 1 and the handle as the id. -/
theorem c10_name_query_failure_ignored_witness :
    ∃ infos,
      (iree_hal_cuda_driver_query_available_devices 8 (fun _ => true)
          symsNameFails).1 = Except.ok (infos, 1) ∧
      infos.length = 1 ∧
      infos.map DeviceInfo.device_id =
        (List.range 1).map (fun j => (j : Int)) :=
  c10_name_query_failure_ignored symsNameFails 8 (fun _ => true) 1
    (fun j => (j : Int)) rfl
    (fun j hj => by
      have h0 : j = 0 := Nat.lt_one_iff.mp hj
      subst h0
      rfl) rfl

/-- C9: the unspecified-device sentinel collides with a valid enumerated id.
If the native handle of the first enumerated device is the integer 0 (the
CUDA convention of ordinal handles), its record stores id 0; feeding that id
back to `create_device` can never take the direct-handle path — it triggers
default-device selection instead. -/
theorem c9_sentinel_collision (syms : Syms) (sizeof_info : Nat)
    (allocOk : Nat → Bool) (N : Nat)
    (hcount : syms.cuDeviceGetCount = Except.ok (N + 1))
    (hget0 : syms.cuDeviceGet 0 = Except.ok 0)
    (halloc : allocOk (query_total_size sizeof_info (N + 1)) = true)
    (hinit : syms.cuInit = Except.ok ()) :
    (∃ rest,
      (iree_hal_cuda_driver_query_available_devices sizeof_info allocOk
          syms).1 =
        Except.ok
          (({ device_id := 0, name := nativeNameBuffer syms 0 } :
              DeviceInfo) :: rest, N + 1)) ∧
    (∀ dflt h,
      iree_hal_cuda_driver_create_device syms dflt 0 ≠
        Except.ok (h, ResolvedVia.directHandle)) ∧
    (∀ dflt h,
      iree_hal_cuda_driver_select_default_device syms dflt = Except.ok h →
        iree_hal_cuda_driver_create_device syms dflt 0 =
          Except.ok (h, ResolvedVia.defaultSelection)) := by
  have hg : syms.cuDeviceGet ((0 : Nat) : Int) = Except.ok 0 := hget0
  refine ⟨⟨query_populate_from syms 1 N, ?_⟩, ?_, ?_⟩
  · unfold iree_hal_cuda_driver_query_available_devices
    rw [hcount]
    simp [halloc, query_populate_from, hg, hget0,
      iree_hal_cuda_populate_device_info]
  · intro dflt h
    unfold iree_hal_cuda_driver_create_device
    rw [hinit]
    cases hsel : iree_hal_cuda_driver_select_default_device syms dflt with
    | ok d => simp [hsel]
    | error e => simp [hsel]
  · intro dflt h hsel
    unfold iree_hal_cuda_driver_create_device
    rw [hinit]
    simp [hsel]

/-- C9 witness: one device with native handle 0 enumerates with id 0, the
sentinel value. -/
theorem c9_sentinel_collision_witness :
    ∃ rest,
      (iree_hal_cuda_driver_query_available_devices 8 (fun _ => true)
          symsNameFails).1 =
        Except.ok
          (({ device_id := 0, name := nativeNameBuffer symsNameFails 0 } :
              DeviceInfo) :: rest, 0 + 1) :=
  (c9_sentinel_collision symsNameFails 8 (fun _ => true) 0 rfl rfl rfl rfl).1

end IreeCuda
